import Mathlib

/-!
Shallow embedding of the `synapxis_chain_investigator` core
(`src/app/main.py`, `src/app/services/apis.py`,
`src/app/services/risk_engine.py`, `src/app/services/report.py`).

Pure string/number logic is translated directly; each external HTTP call is
represented by an explicit parameter carrying that call's outcome, and Python
exception propagation is modelled with `Except` (an `.error` value is an
exception crossing the function's boundary).
-/

/-! ### Python string primitives

Lean's byte-based `String.startsWith`/`String.toLower`/`String.trim` are
defined by well-founded recursion and do not reduce inside the kernel, so
Python's character-level `startswith`, `lower` and `strip` are modelled by
structurally recursive functions over the character list.  (`lower` is
ASCII-only, which covers every string compared by this program; Python's
`strip` removes a couple of rarer whitespace characters that never occur
in these inputs.) -/

/-- ASCII lower-casing of one character. -/
def py_char_lower (c : Char) : Char :=
  if decide ('A' ≤ c) && decide (c ≤ 'Z') then Char.ofNat (c.toNat + 32) else c

/-- Python's `s.lower()` (ASCII). -/
def py_lower (s : String) : String := String.mk (s.toList.map py_char_lower)

/-- Python's `s.startswith(pre)`. -/
def py_starts_with (s pre : String) : Bool := pre.toList.isPrefixOf s.toList

/-- Python's `s.strip()`. -/
def py_strip (s : String) : String :=
  String.mk ((((s.toList.dropWhile Char.isWhitespace).reverse).dropWhile
      Char.isWhitespace).reverse)

namespace Apis

/-! ### apis.py — format detectors -/

/-- `is_tx_hash` (apis.py line 49): a `0x`-prefixed string of total length 66.
NOTE: the source checks only the prefix and the length, not that the
remaining characters are hexadecimal. -/
def is_tx_hash (value : String) : Bool :=
  py_starts_with value "0x" && value.length == 66

/-- `is_address` (apis.py line 52): a `0x`-prefixed string of total length 42
(again no hex check in the source). -/
def is_address (value : String) : Bool :=
  py_starts_with value "0x" && value.length == 42

end Apis

namespace AppMain

/-! ### main.py — detectors and input validation -/

/-- Membership in the character set `"0123456789abcdefABCDEF"` used by
`is_tron_txid` (main.py line 48). -/
def is_py_hex_char (c : Char) : Bool :=
  "0123456789abcdefABCDEF".toList.contains c

/-- `is_tron_txid` (main.py line 47): exactly 64 hex characters with no
`0x` prefix. -/
def is_tron_txid (s : String) : Bool :=
  s.length == 64 && !(py_starts_with s "0x") && s.toList.all is_py_hex_char

/-- `is_tron_address` (main.py lines 50-57, defined three times identically):
starts with `T` and has length between 34 and 36. -/
def is_tron_address (s : String) : Bool :=
  py_starts_with s "T" && decide (34 ≤ s.length) && decide (s.length ≤ 36)

/-- `normalize_input` (main.py line 59): strip surrounding whitespace
(`(raw or "").strip()`). -/
def normalize_input (raw : String) : String := py_strip raw

/-- The reason string returned by `validate_input` for empty input. -/
def empty_reason : String := "Entrada vacía."

/-- The reason string returned by `validate_input` for an unrecognized
format (main.py line 72). -/
def unrecognized_reason : String :=
  "Formato no reconocido. Use: tx Ethereum/Polygon (0x…66), address (0x…42) o tx TRON (64 hex)."

/-- `validate_input` (main.py lines 62-72). The module-level flag
`ENABLE_TRON` is passed as the explicit parameter `enableTron`.
Returns the kind string and the optional reason. -/
def validate_input (enableTron : Bool) (s : String) : String × Option String :=
  let s := normalize_input s
  if s == "" then ("invalid", some empty_reason)
  else if Apis.is_tx_hash s then ("tx", none)
  else if enableTron && is_tron_txid s then ("tx_tron", none)
  else if Apis.is_address s then ("address", none)
  else ("invalid", some unrecognized_reason)

/-! ### main.py — `with_retries` (lines 77-89)

The decorated function is modelled as `fn : Nat → Except E A`, where `fn i`
is the outcome of its `(i+1)`-th invocation (`.error e` models the call
raising exception `e`).  `retry_from fn i remaining` is the loop
`for i in range(...)` with `remaining` iterations left, returning the loop's
outcome together with how many times `fn` was invoked; on the final failed
iteration the last exception is re-raised (`raise last_exc`). -/

/-- Whether a modelled Python call returned normally (`.ok`) rather than
raising (`.error`). -/
def is_ok {E A : Type} : Except E A → Bool
  | .ok _ => true
  | .error _ => false

/-- The retry loop body of `with_retries` (main.py lines 80-88):
first component is the returned value or the re-raised last exception,
second component counts the invocations of `fn`. -/
def retry_from {E A : Type} (fn : Nat → Except E A) (i : Nat) :
    Nat → Except E A × Nat
  | 0 => (fn i, 1)
  | 1 => (fn i, 1)
  | n + 2 =>
    match fn i with
    | .ok a => (.ok a, 1)
    | .error _ =>
      let r := retry_from fn (i + 1) (n + 1)
      (r.1, r.2 + 1)

/-- `with_retries` (main.py line 77): runs the loop for
`max 1 attempts` iterations (`range(max(1, attempts))`), starting at
invocation index 0. -/
def with_retries {E A : Type} (fn : Nat → Except E A) (attempts : Nat) :
    Except E A × Nat :=
  retry_from fn 0 (max 1 attempts)

/-! ### main.py — `cache_ttl` (lines 94-112)

The module-level dict `_cache` maps `(fn.__name__, args)` keys to
`(inserted_at, value)` pairs; it is modelled as an association list with
dict-assignment semantics (`cache_insert` replaces an existing entry in
place).  One wrapped call is `cache_ttl_call`: it captures `now`, checks
for a fresh hit (`now - hit[0] < ttl_s`), and otherwise computes and
stores `(now, res)`.  The third component records whether the wrapped
function was invoked. -/

/-- `_cache.get(key)` (main.py line 104). -/
def cache_lookup {K V : Type} [DecidableEq K] :
    List (K × Int × V) → K → Option (Int × V)
  | [], _ => none
  | (k2, t, v) :: rest, k => if k2 = k then some (t, v) else cache_lookup rest k

/-- `_cache[key] = (now, res)` (main.py line 109): dict assignment,
replacing the entry for `key` when present. -/
def cache_insert {K V : Type} [DecidableEq K]
    (c : List (K × Int × V)) (k : K) (tv : Int × V) : List (K × Int × V) :=
  match c with
  | [] => [(k, tv)]
  | (k2, tv2) :: rest =>
    if k2 = k then (k, tv) :: rest else (k2, tv2) :: cache_insert rest k tv

/-- One invocation of a `cache_ttl`-wrapped function (main.py lines
100-110): returns the value, the updated cache, and whether the wrapped
function `fn` was invoked. -/
def cache_ttl_call {K V : Type} [DecidableEq K] (ttl_s now : Int)
    (c : List (K × Int × V)) (key : K) (fn : Unit → V) :
    V × List (K × Int × V) × Bool :=
  match cache_lookup c key with
  | some (t, v) =>
    if now - t < ttl_s then (v, c, false)
    else
      let res := fn ()
      (res, cache_insert c key (now, res), true)
  | none =>
    let res := fn ()
    (res, cache_insert c key (now, res), true)

/-! ### main.py — the `analyze` route's dispatch (lines 140-183)

`analyze` first strips the input, then (line 146) takes an early-return
branch whenever `is_tron_address` holds — this check is NOT gated on
`ENABLE_TRON`.  Otherwise it calls `validate_input` and, when the kind is
`"invalid"`, returns at lines 178-183 with `files := []` and the summary
`"Entrada inválida: " ++ reason`, before any lookup, before
`risk_evaluate`, and before `generate_docx_and_maybe_pdf` (which is only
reached at line 370 for the non-invalid kinds). -/

/-- The three top-level control-flow branches of `analyze`. -/
inductive AnalyzeBranch where
  /-- the early return at main.py lines 146-173 for TRON-shaped addresses -/
  | tronAddress (addr : String)
  /-- the early return at main.py lines 178-183 for invalid input -/
  | invalid (reason : String)
  /-- the main pipeline (kinds `"tx"`, `"tx_tron"`, `"address"`) -/
  | pipeline (kind : String)
deriving DecidableEq, Repr

/-- Which branch of `analyze` a given request takes (main.py lines 143-183). -/
def analyze_branch (enableTron : Bool) (input_id : String) : AnalyzeBranch :=
  let input_text := py_strip input_id
  if is_tron_address input_text then .tronAddress input_text
  else
    let kd := validate_input enableTron input_id
    if kd.1 == "invalid" then .invalid (kd.2.getD "")
    else .pipeline kd.1

/-- Whether a branch is the invalid early return. -/
def is_invalid_branch : AnalyzeBranch → Bool
  | .invalid _ => true
  | _ => false

/-- The collaborator invocations performed by each branch of `analyze`, in
order.  The TRON-address early return calls `get_tron_account` (line 155),
`risk_evaluate` (line 159) and `generate_docx_and_maybe_pdf` (line 167).
The invalid early return (lines 178-183) performs NO calls at all.  The
main pipeline performs its kind- and data-dependent lookups (abstracted by
the parameter `pipeline_calls`) and always ends with
`generate_docx_and_maybe_pdf` (line 370). -/
def branch_collaborator_calls (pipeline_calls : String → List String) :
    AnalyzeBranch → List String
  | .tronAddress _ =>
      ["get_tron_account", "risk_evaluate", "generate_docx_and_maybe_pdf"]
  | .invalid _ => []
  | .pipeline kind => pipeline_calls kind ++ ["generate_docx_and_maybe_pdf"]

/-- The response summary of the invalid early return (main.py line 179). -/
def invalid_summary (reason : String) : String := "Entrada inválida: " ++ reason

/-- The summary string of `analyze`, where determined by the branch alone:
the invalid early return answers `invalid_summary reason`; the other
branches build data-dependent summaries (modelled as `none`). -/
def branch_summary : AnalyzeBranch → Option String
  | .invalid reason => some (invalid_summary reason)
  | _ => none

/-- The download files produced, where determined by the branch alone: the
invalid early return answers with `files := []` (main.py line 182). -/
def branch_files : AnalyzeBranch → Option (List String)
  | .invalid _ => some []
  | _ => none

end AppMain

namespace Apis

/-! ### apis.py — the Etherscan V2 receipt adapter (lines 64-90)

An HTTP call's outcome is modelled as `HttpResult`: either the underlying
`requests` call raised (`failure`, e.g. a timeout — note that in the source
`http_get`/`http_post` (lines 38-44) are defined in terms of themselves, so
every call actually raises `RecursionError`), or a response arrived with a
status code and a body (`body = none` models a non-JSON payload).
`Except String α` models a Python function that may raise: `.error` is an
exception crossing the function's boundary. -/

/-- Outcome of one `requests` HTTP call. -/
inductive HttpResult (α : Type) where
  /-- a response arrived; `body = none` models a non-JSON payload -/
  | success (statusCode : Nat) (body : Option α)
  /-- the call raised (timeout, connection error, ...) carrying this message -/
  | failure (msg : String)
deriving DecidableEq

/-- The `result` entry of an Etherscan `eth_getTransactionReceipt` reply,
when it is a JSON object.  Only `blockNumber` is consulted by the probing
logic (`get_tx_receipt`); the other receipt fields are read downstream in
`main.py` and are not needed by the claims modelled here. -/
structure RResult where
  blockNumber : Option String
deriving DecidableEq

/-- The `result` value of a proxy reply: the API returns a JSON object on
success, but may also return a string (error text) or `null`. -/
inductive ResultVal where
  | str (s : String)
  | obj (r : RResult)
deriving DecidableEq

/-- A parsed proxy reply: `result` is absent (`null`) or a `ResultVal`. -/
structure ReceiptJson where
  result : Option ResultVal
deriving DecidableEq

/-- The fallback dict built when `r.json()` raises (apis.py line 90):
`{"status": "0", "message": "non_json_response", "result": None}`. -/
def non_json_receipt : ReceiptJson := { result := none }

/-- `safe_request` (apis.py lines 9-23): converts any raised exception into
`None`.  NOTE: this decorator is defined in the source but applied to
nothing — no adapter actually goes through it. -/
def safe_request {α : Type} (call : Except String α) : Option α :=
  match call with
  | .ok a => some a
  | .error _ => none

/-- `_etherscan_v2_proxy_receipt` (apis.py lines 76-90), as a function of
the HTTP call's outcome.  There is no `try/except` around `http_get` or
`r.raise_for_status()`, so a network error or an HTTP error status
propagates out as an exception; only `r.json()` is guarded (line 87). -/
def etherscan_v2_proxy_receipt (http : HttpResult ReceiptJson) :
    Except String ReceiptJson :=
  match http with
  | .failure msg => .error msg
  | .success code body =>
    if 400 ≤ code then .error "HTTPError"
    else
      match body with
      | some j => .ok j
      | none => .ok non_json_receipt

/-- Python truthiness of an optional string (absent, `null` and `""` are
falsy). -/
def truthy_str : Option String → Bool
  | some s => !(s == "")
  | none => false

/-- The acceptance test of `get_tx_receipt` (apis.py line 71):
`isinstance(data, dict) and isinstance(data.get("result"), dict) and
data["result"].get("blockNumber")`. -/
def receipt_has_block (d : ReceiptJson) : Bool :=
  match d.result with
  | some (.obj r) => truthy_str r.blockNumber
  | _ => false

/-- `get_tx_receipt` (apis.py lines 64-74).  `net c` is the outcome of the
HTTP GET issued by `_etherscan_v2_proxy_receipt` for chain `c`.  With hint
`auto` or `polygon` the polygon chain is probed first and accepted only if
its result carries a block number; otherwise (and for any other hint) the
ethereum probe's reply is returned with resolved chain `"ethereum"`.
Exceptions from the probes propagate (there is no `try/except` here). -/
def get_tx_receipt (net : String → HttpResult ReceiptJson)
    (chain : String) : Except String (ReceiptJson × String) :=
  if chain == "auto" || chain == "polygon" then
    match etherscan_v2_proxy_receipt (net "polygon") with
    | .error e => .error e
    | .ok data =>
      if receipt_has_block data then .ok (data, "polygon")
      else
        match etherscan_v2_proxy_receipt (net "ethereum") with
        | .error e => .error e
        | .ok d2 => .ok (d2, "ethereum")
  else
    match etherscan_v2_proxy_receipt (net "ethereum") with
    | .error e => .error e
    | .ok d2 => .ok (d2, "ethereum")

/-! ### apis.py — `parse_erc20_transfers_from_receipt` (lines 164-187)

The receipt's `logs` array is modelled structurally: each log has its
`topics` (a list of hex strings), an optional `data` field (the Python code
reads `lg.get("data", "0x0")`), and an optional `address`.  The whole
`for` loop is wrapped in one `try/except: pass`, so the first log that
raises (fewer than 3 topics, or unparseable `data`) aborts the loop and the
transfers accumulated so far are returned. -/

/-- One entry of `receipt["result"]["logs"]`. -/
structure LogEntry where
  topics : List String
  data : Option String
  address : Option String
deriving DecidableEq

/-- One parsed ERC-20 transfer (`{from, to, value_raw, contract}`);
`from` is a Lean keyword, so the field is named `fromAddr`. -/
structure Transfer where
  fromAddr : String
  toAddr : String
  value_raw : Nat
  contract : Option String
deriving DecidableEq

/-- The canonical ERC-20 `Transfer` event signature (apis.py line 169). -/
def TRANSFER_SIG : String :=
  "0xddf252ad1be2c89b69c2b068fc378daa952ba7f163c4a11628f55a4df523b3ef"

/-- Value of a hexadecimal digit. -/
def hex_digit_val (c : Char) : Nat :=
  if c.isDigit then c.toNat - 48
  else if decide ('a' ≤ c) && decide (c ≤ 'f') then c.toNat - 87
  else if decide ('A' ≤ c) && decide (c ≤ 'F') then c.toNat - 55
  else 0

/-- Whether a character is a hexadecimal digit. -/
def is_hex_digit (c : Char) : Bool :=
  c.isDigit || (decide ('a' ≤ c) && decide (c ≤ 'f'))
    || (decide ('A' ≤ c) && decide (c ≤ 'F'))

/-- Python's `int(s, 16)` on the strings that occur as log `data` fields:
an optional `0x`/`0X` prefix followed by at least one hex digit; anything
else raises in Python, modelled as `none`.  (The sign, underscore and
whitespace lenience of Python's parser plays no role for these inputs.) -/
def int_of_hex? (s : String) : Option Nat :=
  let body := if py_starts_with s "0x" || py_starts_with s "0X" then s.drop 2 else s
  if !(body.length == 0) && body.toList.all is_hex_digit then
    some (body.toList.foldl (fun a c => 16 * a + hex_digit_val c) 0)
  else none

/-- Python's `s[-40:]`: the last 40 characters (the whole string when it is
shorter). -/
def low20_suffix (s : String) : String := s.drop (s.length - 40)

/-- The loop's matching test (apis.py line 175):
`topics and topics[0].lower() == TRANSFER_SIG`. -/
def matches_transfer_sig (lg : LogEntry) : Bool :=
  match lg.topics with
  | [] => false
  | t0 :: _ => py_lower t0 == TRANSFER_SIG

/-- The extraction performed on a matching log (apis.py lines 176-184):
`"0x" + topics[1][-40:]`, `"0x" + topics[2][-40:]`,
`int(lg.get("data", "0x0"), 16)`.  `none` models the extraction raising
(missing topic or unparseable data). -/
def extract_transfer (lg : LogEntry) : Option Transfer :=
  match lg.topics with
  | _ :: t1 :: t2 :: _ =>
    match int_of_hex? (lg.data.getD "0x0") with
    | some v =>
      some { fromAddr := "0x" ++ low20_suffix t1
             toAddr := "0x" ++ low20_suffix t2
             value_raw := v
             contract := lg.address }
    | none => none
  | _ => none

/-- The `for` loop of `parse_erc20_transfers_from_receipt` with its
accumulated `out` list; because the single `try/except: pass` wraps the
whole loop, an extraction failure returns the transfers accumulated so far
and skips every remaining log. -/
def parse_loop (acc : List Transfer) : List LogEntry → List Transfer
  | [] => acc.reverse
  | lg :: rest =>
    if matches_transfer_sig lg then
      match extract_transfer lg with
      | some t => parse_loop (t :: acc) rest
      | none => acc.reverse
    else parse_loop acc rest

/-- `parse_erc20_transfers_from_receipt` (apis.py lines 164-187), as a
function of the receipt's `logs` array (the envelope access
`receipt.get("result", {}).get("logs", [])` defaults to `[]`). -/
def parse_erc20_transfers_from_receipt (logs : List LogEntry) : List Transfer :=
  parse_loop [] logs

/-- Spec-side description of the transfer one log should yield, written
from the specification's words ("a log with topic0 equal to the canonical
signature yields one transfer whose from/to are the low-20-byte-derived
addresses from topics 1 and 2 and whose value_raw equals the integer parse
of the data field"), for comparison with the implementation's
`parse_erc20_transfers_from_receipt`. -/
def transfer_of_log_spec (lg : LogEntry) : Option Transfer :=
  match lg.topics with
  | t0 :: t1 :: t2 :: _ =>
    if py_lower t0 == TRANSFER_SIG then
      (int_of_hex? (lg.data.getD "0x0")).map fun v =>
        { fromAddr := "0x" ++ low20_suffix t1
          toAddr := "0x" ++ low20_suffix t2
          value_raw := v
          contract := lg.address }
    else none
  | _ => none

/-! ### apis.py — `get_tron_account` (lines 218-252)

The parsed TronScan reply is modelled structurally.  The outer `balance`
field is three-state: key absent (`none`), key present with a numeric value
`b` in SUN (`some (some b)`), or key present with a value on which
`float(...)` fails (`some none`).  Each `withPriceTokens` entry carries its
`tokenAbbr` and, when the `balance` key is present and `float(...)`
succeeds, that parsed display-unit value.  Numbers are modelled as `ℚ`. -/

/-- One entry of `withPriceTokens`. -/
structure PriceToken where
  tokenAbbr : Option String
  /-- the parsed `float(t.get("balance"))`; `none` when the key is absent
  or the parse raises -/
  balance : Option ℚ
deriving DecidableEq

/-- The parsed TronScan `/api/account` reply. -/
structure TronAccountData where
  balance : Option (Option ℚ)
  withPriceTokens : Option (List PriceToken)
deriving DecidableEq

/-- The fallback scan over `withPriceTokens` (apis.py lines 236-243): the
first entry with `tokenAbbr == "TRX"` and a parseable `balance` yields that
value (already in display units); entries that fail the test or whose
parse raises are skipped. -/
def first_trx_display_balance : List PriceToken → Option ℚ
  | [] => none
  | t :: rest =>
    if t.tokenAbbr == some "TRX" then
      match t.balance with
      | some v => some v
      | none => first_trx_display_balance rest
    else first_trx_display_balance rest

/-- The `balance_trx` computed by `get_tron_account` (apis.py lines
228-250) from a successfully fetched and parsed reply.  The `balance` key
(SUN units) is read first; ONLY when it is absent (`elif`, line 234) is
`withPriceTokens` scanned.  A present SUN value is divided by 1,000,000
(line 247). -/
def get_tron_account (d : TronAccountData) : Option ℚ :=
  match d.balance with
  | some (some b) => some (b / 1000000)
  | some none => none
  | none =>
    match d.withPriceTokens with
    | some ts => first_trx_display_balance ts
    | none => none

end Apis

namespace RiskEngine

/-! ### risk_engine.py — `evaluate` (lines 70-125)

The two helper lookups `get_eth_tokens` and `get_tron_account` are
HTTP-backed; their results enter `evaluate` as the explicit parameters
`eth_tokens` and `tron_acc` (on any network failure `safe_get` returns `{}`
and they degrade to an empty token list / zero balance and count, so plain
values suffice).  The `meta` dict fields consulted by `evaluate` are
modelled as optional strings (`none` = key absent). -/

/-- One token entry produced by `get_eth_tokens` (risk_engine.py lines
50-53); only `symbol` is consulted by the rules. -/
structure TokenInfo where
  symbol : Option String
  balance : ℚ
deriving DecidableEq

/-- The result of `risk_engine.get_tron_account` (lines 57-67):
`balance_trx` in display units and the total transaction count (both
default to 0). -/
structure TronRiskAccount where
  balance_trx : ℚ
  txs : Nat
deriving DecidableEq

/-- The fields of `meta` read by `evaluate`. -/
structure MetaIn where
  network : Option String
  fromAddr : Option String
  toAddr : Option String
  tx_hash : Option String
  flow_label : Option String
  status : Option String
  risk_reasons : Option (List String)
deriving DecidableEq

/-- `RiskResult` (risk_engine.py lines 14-18).  The score starts at 0 and
rules only add, so `Nat` is faithful. -/
structure RiskResult where
  score : Nat
  band : String
  reasons : List String
deriving DecidableEq

/-- `classify_score` (risk_engine.py lines 32-38). -/
def classify_score (score : Nat) : String :=
  if 70 ≤ score then "ALTO"
  else if 40 ≤ score then "MEDIO"
  else "BAJO"

/-- The Python truthiness chain
`meta.get("from") or meta.get("to") or meta.get("tx_hash") or ""`
(risk_engine.py line 76): the first present non-empty string, else `""`. -/
def first_truthy : List (Option String) → String
  | [] => ""
  | some s :: rest => if s == "" then first_truthy rest else s
  | none :: rest => first_truthy rest

/-- `la` starts with `lb`. -/
def chars_start_with : List Char → List Char → Bool
  | _, [] => true
  | [], _ :: _ => false
  | a :: la, b :: lb => a == b && chars_start_with la lb

/-- `needle` occurs as a contiguous run inside `hay`. -/
def chars_contain_sub (needle : List Char) : List Char → Bool
  | [] => needle.isEmpty
  | c :: rest => chars_start_with (c :: rest) needle || chars_contain_sub needle rest

/-- Python's `needle in hay` for strings. -/
def str_in (needle hay : String) : Bool :=
  chars_contain_sub needle.toList hay.toList

/-- `evaluate` (risk_engine.py lines 70-125).  Rule order and reason texts
follow the source: the EVM token rules (elif: the TRON rules), then the
flow rule, the status rule and the ponzi-list rule; the score is clamped to
100 at the end and the band derived by `classify_score`.  The `transfers`
argument is accepted but never read, as in the source. -/
def evaluate (eth_tokens : List TokenInfo) (tron_acc : TronRiskAccount)
    (meta : MetaIn) (transfers : List Apis.Transfer) : RiskResult :=
  let _ := transfers
  let network := py_lower (meta.network.getD "")
  let address := first_truthy [meta.fromAddr, meta.toAddr, meta.tx_hash]
  let branch : Nat × List String :=
    if (network == "ethereum" || network == "polygon") && py_starts_with address "0x" then
      if eth_tokens.isEmpty then
        (10, ["Dirección sin tokens visibles (posible inactiva)."])
      else
        let stable := eth_tokens.filter fun t =>
          t.symbol == some "USDT" || t.symbol == some "USDC" || t.symbol == some "DAI"
        if !stable.isEmpty then
          (0, ["Tiene " ++ toString stable.length ++ " stablecoins (menor riesgo)."])
        else
          (10, ["Sin stablecoins detectadas (mayor volatilidad)."])
    else if network == "tron" && py_starts_with address "T" then
      let ruleTx : Nat × List String :=
        if tron_acc.txs == 0 then
          (20, ["Cuenta sin transacciones registradas (inactiva)."])
        else
          (0, [toString tron_acc.txs ++ " transacciones detectadas en TronScan."])
      let ruleBal : Nat × List String :=
        if 500 < tron_acc.balance_trx then
          (0, ["Balance superior a 500 TRX (activa)."])
        else
          (10, ["Balance bajo en TRX (<500)."])
      (ruleTx.1 + ruleBal.1, ruleTx.2 ++ ruleBal.2)
    else (0, [])
  let ruleFlow : Nat × List String :=
    match meta.flow_label with
    | some fl =>
      if !(fl == "") && str_in "saliente" (py_lower fl) then
        (5, ["Flujo saliente detectado (posible drenaje de fondos)."])
      else (0, [])
    | none => (0, [])
  let ruleStatus : Nat × List String :=
    match meta.status with
    | some st =>
      if !(st == "") && !(py_lower st == "success") then
        (10, ["Transacción incompleta o fallida."])
      else (0, [])
    | none => (0, [])
  let rulePonzi : Nat × List String :=
    if (meta.risk_reasons.getD []).contains "ponzi" then
      (25, ["Coincidencia con lista Ponzi conocida."])
    else (0, [])
  let score := branch.1 + ruleFlow.1 + ruleStatus.1 + rulePonzi.1
  let score := if 100 < score then 100 else score
  { score := score
    band := classify_score score
    reasons := branch.2 ++ ruleFlow.2 ++ ruleStatus.2 ++ rulePonzi.2 }

end RiskEngine

namespace Report

/-- The risk-reasons line of `generate_docx_and_maybe_pdf` (report.py line
220): `meta.get("risk_reasons") or ["Sin señales relevantes con las reglas
actuales."]` — the default reason list is substituted by the RENDERER when
the scorer handed back an absent or empty list (both are falsy). -/
def default_reason : String := "Sin señales relevantes con las reglas actuales."

/-- The reasons actually rendered in section 4 of the report. -/
def report_risk_reasons : Option (List String) → List String
  | some (r :: rs) => r :: rs
  | _ => [default_reason]

end Report

/-! ## Concrete instances used by the theorems below -/

/-- A TRON-shaped address: `T` followed by 33 characters (length 34). -/
def tron_addr_ex : String := "TAAAAAAAAAAAAAAAAAAAAAAAAAAAAAAAAA"

/-- A second TRON-shaped address of length 35, used as a witness input. -/
def tron_addr_ex2 : String := "TBBBBBBBBBBBBBBBBBBBBBBBBBBBBBBBBBB"

/-- A 66-character `0x`-prefixed string whose remaining 64 characters are
not hexadecimal. -/
def nonhex_tx_ex : String := "0x" ++ String.mk (List.replicate 64 'z')

/-- A matching but malformed log: its first topic is the `Transfer`
signature but it has no further topics, so `topics[1]` raises in Python. -/
def bad_transfer_log : Apis.LogEntry :=
  { topics := [Apis.TRANSFER_SIG], data := some "0x5", address := none }

/-- A well-formed 32-byte sender topic (24 zero digits, then 40 `a`s). -/
def good_topic1 : String :=
  "0x000000000000000000000000aaaaaaaaaaaaaaaaaaaaaaaaaaaaaaaaaaaaaaaa"

/-- A well-formed 32-byte recipient topic (24 zero digits, then 40 `b`s). -/
def good_topic2 : String :=
  "0x000000000000000000000000bbbbbbbbbbbbbbbbbbbbbbbbbbbbbbbbbbbbbbbb"

/-- A matching, fully well-formed `Transfer` log. -/
def good_transfer_log : Apis.LogEntry :=
  { topics := [Apis.TRANSFER_SIG, good_topic1, good_topic2]
    data := some "0x1f"
    address := some "0xc02aaa39b223fe8d0a0e5c4f27ead9083c756cc2" }

/-- A log whose first topic is not the `Transfer` signature. -/
def plain_log : Apis.LogEntry :=
  { topics := ["0xdeadbeef"], data := none, address := none }

/-- A TronScan account reply carrying BOTH a SUN-unit `balance` field and a
display-unit TRX entry in `withPriceTokens`. -/
def tron_account_ex : Apis.TronAccountData :=
  { balance := some (some 5000000)
    withPriceTokens := some [{ tokenAbbr := some "TRX", balance := some 7 }] }

/-- A fact record on which no risk rule fires: unknown network, successful
status, no outgoing-flow marker, no ponzi match. -/
def quiet_meta : RiskEngine.MetaIn :=
  { network := some "N/A"
    fromAddr := some "0xabc"
    toAddr := none
    tx_hash := none
    flow_label := some "N/D"
    status := some "Success"
    risk_reasons := some [] }

/-- An HTTP layer on which the polygon probe answers without a block number
and the ethereum probe answers with one. -/
def net_poly_empty : String → Apis.HttpResult Apis.ReceiptJson := fun c =>
  if c == "polygon" then .success 200 (some ⟨some (.obj ⟨none⟩)⟩)
  else .success 200 (some ⟨some (.obj ⟨some "0x10"⟩)⟩)

/-- An HTTP layer on which the polygon probe answers with a block number. -/
def net_poly_ok : String → Apis.HttpResult Apis.ReceiptJson := fun c =>
  if c == "polygon" then .success 200 (some ⟨some (.obj ⟨some "0x9"⟩)⟩)
  else .failure "unreachable"

/-! ## Theorems -/

/-! ### Retry wrapper (C2) -/

/-- Helper: once an invocation succeeds, the retry loop stops with that
value after exactly one (further) invocation. -/
theorem retry_from_ok {E A : Type} {fn : Nat → Except E A} {i : Nat} {v : A}
    (h : fn i = .ok v) (n : Nat) : AppMain.retry_from fn i n = (.ok v, 1) := by
  match n with
  | 0 => simp [AppMain.retry_from, h]
  | 1 => simp [AppMain.retry_from, h]
  | n + 2 => simp [AppMain.retry_from, h]

/-- Helper: if the first `k` invocations starting at index `i` fail and the
`(k+1)`-th succeeds with `v`, the loop (with more than `k` iterations left)
returns `v` after `k + 1` invocations. -/
theorem retry_from_success {E A : Type} (fn : Nat → Except E A) (v : A) :
    ∀ (k i n : Nat), k < n →
      (∀ j, j < k → AppMain.is_ok (fn (i + j)) = false) →
      fn (i + k) = .ok v →
      AppMain.retry_from fn i n = (.ok v, k + 1) := by
  intro k
  induction k with
  | zero =>
    intro i n _ _ hok
    exact retry_from_ok (by simpa using hok) n
  | succ k ih =>
    intro i n hn hfail hok
    obtain ⟨m, rfl⟩ : ∃ m, n = m + 2 := ⟨n - 2, by omega⟩
    have h0 : AppMain.is_ok (fn i) = false := by
      simpa using hfail 0 (Nat.succ_pos k)
    obtain ⟨e, he⟩ : ∃ e, fn i = .error e := by
      cases hfn : fn i with
      | ok a => rw [hfn] at h0; simp [AppMain.is_ok] at h0
      | error e => exact ⟨e, rfl⟩
    have hrec := ih (i + 1) (m + 1) (by omega)
      (fun j hj => by
        have h2 := hfail (j + 1) (by omega)
        have hi : i + (j + 1) = i + 1 + j := by omega
        rwa [hi] at h2)
      (by
        have hi : i + (k + 1) = i + 1 + k := by omega
        rwa [hi] at hok)
    simp [AppMain.retry_from, he, hrec]

/-- Helper: if all `n ≥ 1` remaining invocations starting at index `i`
fail, the loop re-raises the error of the last one after exactly `n`
invocations. -/
theorem retry_from_all_fail {E A : Type} (fn : Nat → Except E A) (es : Nat → E) :
    ∀ (n : Nat), 1 ≤ n → ∀ (i : Nat),
      (∀ j, j < n → fn (i + j) = .error (es (i + j))) →
      AppMain.retry_from fn i n = (.error (es (i + n - 1)), n) := by
  intro n
  induction n with
  | zero => intro h; exact absurd h (by omega)
  | succ n ih =>
    intro _ i hfail
    cases n with
    | zero =>
      have h0 : fn i = .error (es i) := by simpa using hfail 0 (by omega)
      simp [AppMain.retry_from, h0]
    | succ m =>
      have h0 : fn i = .error (es i) := by simpa using hfail 0 (by omega)
      have hrec := ih (by omega) (i + 1) (fun j hj => by
        have h2 := hfail (j + 1) (by omega)
        have hi : i + (j + 1) = i + 1 + j := by omega
        rwa [hi] at h2)
      have hidx : i + 1 + (m + 1) - 1 = i + (m + 1 + 1) - 1 := by omega
      rw [hidx] at hrec
      simp [AppMain.retry_from, h0, hrec]

/-- **C2** — `with_retries` (main.py lines 77-89): for every function and
every `attempts ≥ 1`, (a) if the function fails on its first `k < attempts`
invocations and succeeds on invocation `k+1`, the wrapped call returns that
success value having invoked the function exactly `k+1` times; (b) if it
fails on every invocation, the wrapped call re-raises the last error after
exactly `attempts` invocations. -/
theorem with_retries_correct :
    (∀ (E A : Type) (fn : Nat → Except E A) (attempts k : Nat) (v : A),
        1 ≤ attempts → k < attempts →
        (∀ j, j < k → AppMain.is_ok (fn j) = false) → fn k = .ok v →
        AppMain.with_retries fn attempts = (.ok v, k + 1)) ∧
    (∀ (E A : Type) (fn : Nat → Except E A) (attempts : Nat) (es : Nat → E),
        1 ≤ attempts →
        (∀ j, j < attempts → fn j = .error (es j)) →
        AppMain.with_retries fn attempts = (.error (es (attempts - 1)), attempts)) := by
  constructor
  · intro E A fn attempts k v h1 hk hfail hok
    have h := retry_from_success fn v k 0 attempts hk
      (fun j hj => by simpa using hfail j hj) (by simpa using hok)
    simpa [AppMain.with_retries, Nat.max_eq_right h1] using h
  · intro E A fn attempts es h1 hfail
    have h := retry_from_all_fail fn es attempts h1 0
      (fun j hj => by simpa using hfail j hj)
    simpa [AppMain.with_retries, Nat.max_eq_right h1] using h

/-- Witness for C2: a function failing twice then succeeding, wrapped with
5 attempts, returns the success after 3 invocations; a function that always
fails, wrapped with 3 attempts, re-raises after exactly 3 invocations. -/
theorem with_retries_correct_witness :
    AppMain.with_retries
        (fun i => if i < 2 then (.error "boom" : Except String Nat) else .ok 42) 5 =
      (.ok 42, 3) ∧
    AppMain.with_retries (fun _ => (.error "boom" : Except String Nat)) 3 =
      (.error "boom", 3) := by
  constructor
  · exact with_retries_correct.1 String Nat _ 5 2 42 (by omega) (by omega)
      (fun j hj => by simp [AppMain.is_ok, hj]) (by simp)
  · exact with_retries_correct.2 String Nat _ 3 (fun _ => "boom") (by omega)
      (fun j _ => rfl)

/-! ### TTL cache (C3) -/

/-- Helper: dict assignment then lookup on the same key yields the newly
assigned pair. -/
theorem cache_lookup_insert {K V : Type} [DecidableEq K]
    (c : List (K × Int × V)) (k : K) (tv : Int × V) :
    AppMain.cache_lookup (AppMain.cache_insert c k tv) k = some tv := by
  induction c with
  | nil => simp [AppMain.cache_insert, AppMain.cache_lookup]
  | cons hd t ih =>
    obtain ⟨k2, tv2⟩ := hd
    by_cases hk : k2 = k
    · simp [AppMain.cache_insert, AppMain.cache_lookup, hk]
    · simp [AppMain.cache_insert, AppMain.cache_lookup, hk, ih]

/-- **C3** — `cache_ttl` (main.py lines 94-112): for a cache holding an
entry `(t, v)` under `key`, a call at time `now` with `now - t < ttl`
returns `v` without invoking the computation and leaves the cache
unchanged; a call with the ttl elapsed invokes the computation again and
overwrites the prior entry with `(now, fn ())`. -/
theorem cache_ttl_correct {K V : Type} [DecidableEq K]
    (ttl now t : Int) (c : List (K × Int × V)) (k : K) (v : V) (fn : Unit → V)
    (hl : AppMain.cache_lookup c k = some (t, v)) :
    (now - t < ttl → AppMain.cache_ttl_call ttl now c k fn = (v, c, false)) ∧
    (ttl ≤ now - t →
      AppMain.cache_ttl_call ttl now c k fn =
        (fn (), AppMain.cache_insert c k (now, fn ()), true) ∧
      AppMain.cache_lookup (AppMain.cache_insert c k (now, fn ())) k =
        some (now, fn ())) := by
  refine ⟨fun hfresh => ?_, fun hstale => ⟨?_, cache_lookup_insert c k (now, fn ())⟩⟩
  · simp [AppMain.cache_ttl_call, hl, hfresh]
  · simp [AppMain.cache_ttl_call, hl, if_neg (by omega : ¬ now - t < ttl)]

/-- Witness for C3: with entry `("stats", (0, 7))` and ttl 90, a call at
time 10 answers 7 from the cache without computing; a call at time 100
computes 9 and overwrites the entry with `(100, 9)`. -/
theorem cache_ttl_correct_witness :
    AppMain.cache_ttl_call (90 : Int) 10 [("stats", ((0 : Int), 7))] "stats"
        (fun _ => 9) =
      (7, [("stats", ((0 : Int), 7))], false) ∧
    AppMain.cache_ttl_call (90 : Int) 100 [("stats", ((0 : Int), 7))] "stats"
        (fun _ => 9) =
      (9, [("stats", ((100 : Int), 9))], true) := by
  constructor
  · exact (cache_ttl_correct 90 10 0 [("stats", ((0 : Int), 7))] "stats" 7
      (fun _ => 9) (by decide)).1 (by decide)
  · have h := ((cache_ttl_correct 90 100 0 [("stats", ((0 : Int), 7))] "stats" 7
      (fun _ => 9) (by decide)).2 (by decide)).1
    rw [h]; rfl

/-! ### ERC-20 transfer parsing (C4) -/

/-- Helper: a log that fails the signature test contributes nothing under
the spec-side description either. -/
theorem transfer_spec_none_of_no_match (lg : Apis.LogEntry)
    (h : Apis.matches_transfer_sig lg = false) :
    Apis.transfer_of_log_spec lg = none := by
  cases hlg : lg.topics with
  | nil => simp [Apis.transfer_of_log_spec, hlg]
  | cons t0 r1 =>
    have h0 : (py_lower t0 == Apis.TRANSFER_SIG) = false := by
      simpa [Apis.matches_transfer_sig, hlg] using h
    cases r1 with
    | nil => simp [Apis.transfer_of_log_spec, hlg]
    | cons t1 r2 =>
      cases r2 with
      | nil => simp [Apis.transfer_of_log_spec, hlg]
      | cons t2 r3 => simp [Apis.transfer_of_log_spec, hlg, h0]

/-- Helper: on a matching log with at least 3 topics and parseable data,
the implementation's extraction agrees with the spec-side description and
succeeds. -/
theorem extract_eq_spec_of_match (lg : Apis.LogEntry)
    (hm : Apis.matches_transfer_sig lg = true)
    (hlen : 3 ≤ lg.topics.length)
    (hdata : (Apis.int_of_hex? (lg.data.getD "0x0")).isSome = true) :
    Apis.extract_transfer lg = Apis.transfer_of_log_spec lg ∧
    (Apis.extract_transfer lg).isSome = true := by
  cases hlg : lg.topics with
  | nil => rw [hlg] at hlen; simp at hlen
  | cons t0 r1 =>
    cases r1 with
    | nil => rw [hlg] at hlen; simp at hlen
    | cons t1 r2 =>
      cases r2 with
      | nil => rw [hlg] at hlen; simp at hlen
      | cons t2 r3 =>
        have h0 : (py_lower t0 == Apis.TRANSFER_SIG) = true := by
          simpa [Apis.matches_transfer_sig, hlg] using hm
        obtain ⟨v, hv⟩ := Option.isSome_iff_exists.mp hdata
        simp [Apis.extract_transfer, Apis.transfer_of_log_spec, hlg, h0, hv]

/-- Helper: under per-log well-formedness the loop computes the spec-side
`filterMap`, for every accumulator. -/
theorem parse_loop_eq_filterMap :
    ∀ (logs : List Apis.LogEntry),
      (∀ lg ∈ logs, Apis.matches_transfer_sig lg = true →
        3 ≤ lg.topics.length ∧
        (Apis.int_of_hex? (lg.data.getD "0x0")).isSome = true) →
      ∀ acc, Apis.parse_loop acc logs =
        acc.reverse ++ logs.filterMap Apis.transfer_of_log_spec := by
  intro logs
  induction logs with
  | nil => intro _ acc; simp [Apis.parse_loop]
  | cons lg rest ih =>
    intro hwf acc
    by_cases hm : Apis.matches_transfer_sig lg = true
    · have hw := hwf lg (List.mem_cons_self lg rest) hm
      have hes := extract_eq_spec_of_match lg hm hw.1 hw.2
      obtain ⟨t, ht⟩ := Option.isSome_iff_exists.mp hes.2
      have hspec : Apis.transfer_of_log_spec lg = some t := by
        rw [← hes.1]; exact ht
      have ihr := ih (fun l hl hml => hwf l (List.mem_cons_of_mem lg hl) hml) (t :: acc)
      simp [Apis.parse_loop, hm, ht, hspec, ihr, List.filterMap_cons]
    · have hm' : Apis.matches_transfer_sig lg = false := by simpa using hm
      have hspec := transfer_spec_none_of_no_match lg hm'
      have ihr := ih (fun l hl hml => hwf l (List.mem_cons_of_mem lg hl) hml) acc
      simp [Apis.parse_loop, hm', hspec, ihr, List.filterMap_cons]

/-- Helper: with no matching log the loop returns the accumulator. -/
theorem parse_loop_no_match :
    ∀ (logs : List Apis.LogEntry),
      (∀ lg ∈ logs, Apis.matches_transfer_sig lg = false) →
      ∀ acc, Apis.parse_loop acc logs = acc.reverse := by
  intro logs
  induction logs with
  | nil => intro _ acc; simp [Apis.parse_loop]
  | cons lg rest ih =>
    intro h acc
    have h0 := h lg (List.mem_cons_self lg rest)
    simp [Apis.parse_loop, h0, ih (fun l hl => h l (List.mem_cons_of_mem lg hl)) acc]

set_option maxRecDepth 8000 in
/-- **C4** counterexample: in `[bad_transfer_log, good_transfer_log]` the
second log matches the canonical signature and is fully well-formed, yet
the parser returns the EMPTY list — the first (matching but malformed) log
raises inside the single `try` that wraps the whole loop, aborting it.  The
claim "every log whose topics[0] equals the signature yields exactly one
transfer" is therefore false for this receipt. -/
theorem parse_erc20_truncation_cx :
    Apis.parse_erc20_transfers_from_receipt [bad_transfer_log, good_transfer_log] = [] ∧
    Apis.matches_transfer_sig good_transfer_log = true ∧
    Apis.transfer_of_log_spec good_transfer_log =
      some { fromAddr := "0xaaaaaaaaaaaaaaaaaaaaaaaaaaaaaaaaaaaaaaaa"
             toAddr := "0xbbbbbbbbbbbbbbbbbbbbbbbbbbbbbbbbbbbbbbbb"
             value_raw := 31
             contract := some "0xc02aaa39b223fe8d0a0e5c4f27ead9083c756cc2" } := by
  refine ⟨by decide, by decide, by decide⟩

/-- **C4 (amended)** — `parse_erc20_transfers_from_receipt` (apis.py lines
164-187): (a) PROVIDED every matching log is well-formed (at least 3 topics
and base-16-parseable data), the parser returns exactly one transfer per
matching log, in order, with `from`/`to` equal to `"0x"` plus the last 40
characters of topics 1 and 2 and `value_raw` the base-16 parse of the data
field; without that proviso a malformed matching log truncates the output
at its position; (b) unconditionally, a receipt with no matching log yields
the empty list. -/
theorem parse_erc20_transfers_amended (logs : List Apis.LogEntry) :
    ((∀ lg ∈ logs, Apis.matches_transfer_sig lg = true →
        3 ≤ lg.topics.length ∧
        (Apis.int_of_hex? (lg.data.getD "0x0")).isSome = true) →
      Apis.parse_erc20_transfers_from_receipt logs =
        logs.filterMap Apis.transfer_of_log_spec) ∧
    ((∀ lg ∈ logs, Apis.matches_transfer_sig lg = false) →
      Apis.parse_erc20_transfers_from_receipt logs = []) := by
  constructor
  · intro hwf
    simpa [Apis.parse_erc20_transfers_from_receipt] using
      parse_loop_eq_filterMap logs hwf []
  · intro hnm
    simpa [Apis.parse_erc20_transfers_from_receipt] using
      parse_loop_no_match logs hnm []

set_option maxRecDepth 8000 in
/-- Witness for the amended C4: a receipt with one well-formed matching log
yields exactly that log's transfer; a receipt with one non-matching log
yields the empty list. -/
theorem parse_erc20_transfers_amended_witness :
    Apis.parse_erc20_transfers_from_receipt [good_transfer_log] =
      [{ fromAddr := "0xaaaaaaaaaaaaaaaaaaaaaaaaaaaaaaaaaaaaaaaa"
         toAddr := "0xbbbbbbbbbbbbbbbbbbbbbbbbbbbbbbbbbbbbbbbb"
         value_raw := 31
         contract := some "0xc02aaa39b223fe8d0a0e5c4f27ead9083c756cc2" }] ∧
    Apis.parse_erc20_transfers_from_receipt [plain_log] = [] := by
  constructor
  · have h := (parse_erc20_transfers_amended [good_transfer_log]).1 (by decide)
    rw [h]; decide
  · exact (parse_erc20_transfers_amended [plain_log]).2 (by decide)

/-! ### Classification of TRON-shaped addresses (C5) -/

/-- **C5** counterexample: with TRON support DISABLED, the length-34
`T`-prefixed input is still routed to the TRON-address branch of `analyze`
(main.py line 146 checks `is_tron_address` before `validate_input` and
without consulting `ENABLE_TRON`), so it is NOT classified invalid as the
claim requires. -/
theorem tron_address_ignores_flag_cx :
    AppMain.analyze_branch false tron_addr_ex = .tronAddress tron_addr_ex ∧
    AppMain.is_invalid_branch (AppMain.analyze_branch false tron_addr_ex) = false := by
  refine ⟨by decide, by decide⟩

/-- **C5 (amended)** — for every trimmed string starting with `T` of length
34-36, `analyze` takes the TRON-address branch (kind address, chain tron)
REGARDLESS of whether TRON support is enabled. -/
theorem tron_address_classified_regardless_of_flag
    (enableTron : Bool) (s : String) (htrim : AppMain.normalize_input s = s)
    (hT : py_starts_with s "T" = true)
    (h34 : 34 ≤ s.length) (h36 : s.length ≤ 36) :
    AppMain.analyze_branch enableTron s = .tronAddress s := by
  have hs : py_strip s = s := htrim
  have ht : AppMain.is_tron_address s = true := by
    simp [AppMain.is_tron_address, hT, h34, h36]
  simp [AppMain.analyze_branch, hs, ht]

/-- Witness for the amended C5: a length-35 `T`-prefixed string is routed
to the TRON-address branch with the flag on. -/
theorem tron_address_classified_regardless_of_flag_witness :
    AppMain.analyze_branch true tron_addr_ex2 = .tronAddress tron_addr_ex2 := by
  exact tron_address_classified_regardless_of_flag true tron_addr_ex2
    (by decide) (by decide) (by decide) (by decide)

/-! ### Unrecognized-format classification (C6) -/

/-- **C6** counterexample: the 66-character string `"0x" ++ 64 × 'z'` has a
non-hex tail, yet `validate_input` classifies it as kind `tx` (not
invalid): `is_tx_hash` (apis.py line 49) checks only the `0x` prefix and
the total length 66. -/
theorem nonhex_tx_hash_classified_tx_cx :
    AppMain.analyze_branch true nonhex_tx_ex = .pipeline "tx" ∧
    AppMain.is_invalid_branch (AppMain.analyze_branch true nonhex_tx_ex) = false ∧
    (nonhex_tx_ex.drop 2).toList.all AppMain.is_py_hex_char = false ∧
    nonhex_tx_ex.length = 66 := by
  refine ⟨by decide, by decide, by decide, by decide⟩

/-- **C6 (amended)** — for every trimmed non-empty input matching none of
the patterns the CODE actually checks (`T`-prefix length 34-36;
`0x`-prefix length 66 — hex NOT required; bare 64 hex chars when TRON is
enabled; `0x`-prefix length 42 — hex NOT required), classification is
invalid with the unrecognized-format reason.  (A 66-character `0x` string
with a non-hex tail is classified `tx`, not invalid.) -/
theorem unrecognized_input_invalid_amended
    (enableTron : Bool) (s : String)
    (htrim : AppMain.normalize_input s = s) (hne : (s == "") = false)
    (h1 : AppMain.is_tron_address s = false)
    (h2 : Apis.is_tx_hash s = false)
    (h3 : (enableTron && AppMain.is_tron_txid s) = false)
    (h4 : Apis.is_address s = false) :
    AppMain.analyze_branch enableTron s = .invalid AppMain.unrecognized_reason := by
  have hs : py_strip s = s := htrim
  have hv : AppMain.validate_input enableTron s =
      ("invalid", some AppMain.unrecognized_reason) := by
    simp [AppMain.validate_input, AppMain.normalize_input, hs, hne, h2, h3, h4]
  simp [AppMain.analyze_branch, hs, h1, hv]

/-- Witness for the amended C6: `"hello"` matches no pattern and is
classified invalid with the unrecognized-format reason. -/
theorem unrecognized_input_invalid_amended_witness :
    AppMain.analyze_branch true "hello" = .invalid AppMain.unrecognized_reason := by
  exact unrecognized_input_invalid_amended true "hello"
    (by decide) (by decide) (by decide) (by decide) (by decide) (by decide)

/-! ### TRON account units (C7) -/

/-- **C7** counterexample: on a reply carrying BOTH a SUN-unit `balance`
field (5,000,000 SUN) and a display-unit TRX entry (7 TRX) in
`withPriceTokens`, `get_tron_account` answers the SUN-derived 5 TRX — the
`elif` at apis.py line 234 makes the SUN field take precedence, the
opposite of the claimed precedence of the display-unit field (7 ≠ 5). -/
theorem tron_balance_sun_precedence_cx :
    Apis.get_tron_account tron_account_ex = some ((5000000 : ℚ) / 1000000) ∧
    (5000000 : ℚ) / 1000000 = 5 ∧
    Apis.first_trx_display_balance
      [{ tokenAbbr := some "TRX", balance := some 7 }] = some 7 ∧
    (5 : ℚ) ≠ 7 := by
  refine ⟨rfl, by norm_num, rfl, by norm_num⟩

/-- **C7 (amended)** — `get_tron_account` (apis.py lines 218-252): a
present smallest-unit (`balance`, SUN) figure is converted to display
units by dividing by 1,000,000 and ALWAYS takes precedence; the
display-unit TRX entry of `withPriceTokens` is consulted only when the
`balance` key is absent. -/
theorem get_tron_account_units_amended :
    (∀ (d : Apis.TronAccountData) (b : ℚ), d.balance = some (some b) →
      Apis.get_tron_account d = some (b / 1000000)) ∧
    (∀ (d : Apis.TronAccountData) (ts : List Apis.PriceToken),
      d.balance = none → d.withPriceTokens = some ts →
      Apis.get_tron_account d = Apis.first_trx_display_balance ts) := by
  constructor
  · intro d b hb
    simp [Apis.get_tron_account, hb]
  · intro d ts hb ht
    simp [Apis.get_tron_account, hb, ht]

/-- Witness for the amended C7: a 10,000,000-SUN balance is reported as
`10000000 / 1000000` (= 10) TRX; with the SUN field absent, the TRX
display-unit entry (7) is used. -/
theorem get_tron_account_units_amended_witness :
    Apis.get_tron_account { balance := some (some 10000000), withPriceTokens := none } =
      some ((10000000 : ℚ) / 1000000) ∧
    Apis.get_tron_account
        { balance := none
          withPriceTokens := some [{ tokenAbbr := some "TRX", balance := some 7 }] } =
      some 7 := by
  constructor
  · exact get_tron_account_units_amended.1 _ 10000000 rfl
  · have h := get_tron_account_units_amended.2
      { balance := none
        withPriceTokens := some [{ tokenAbbr := some "TRX", balance := some 7 }] }
      [{ tokenAbbr := some "TRX", balance := some 7 }] rfl rfl
    rw [h]; rfl

/-! ### Risk-scorer reasons (C8) -/

/-- **C8** counterexample: on `quiet_meta` (unknown network, successful
status, no outgoing flow, no ponzi match) NO rule of
`risk_engine.evaluate` fires and the scorer returns an EMPTY reasons list —
the default "no significant signals" text is not added by the scorer. -/
theorem evaluate_reasons_can_be_empty_cx :
    (RiskEngine.evaluate [] ⟨0, 0⟩ quiet_meta []).reasons = [] := by decide

/-- **C8 (amended)** — the reasons list returned by
`risk_engine.evaluate` CAN be empty when no rule fires; it is the report
renderer (report.py line 220) that substitutes the default
"Sin señales relevantes con las reglas actuales." reason, so the RENDERED
reasons list is never empty. -/
theorem rendered_risk_reasons_nonempty
    (eth_tokens : List RiskEngine.TokenInfo)
    (tron_acc : RiskEngine.TronRiskAccount)
    (meta : RiskEngine.MetaIn) (transfers : List Apis.Transfer) :
    Report.report_risk_reasons
        (some (RiskEngine.evaluate eth_tokens tron_acc meta transfers).reasons) ≠ [] ∧
    ((RiskEngine.evaluate eth_tokens tron_acc meta transfers).reasons = [] →
      Report.report_risk_reasons
          (some (RiskEngine.evaluate eth_tokens tron_acc meta transfers).reasons) =
        [Report.default_reason]) := by
  refine ⟨?_, fun h => by simp [Report.report_risk_reasons, h]⟩
  cases hr : (RiskEngine.evaluate eth_tokens tron_acc meta transfers).reasons with
  | nil => simp [Report.report_risk_reasons]
  | cons a l => simp [Report.report_risk_reasons]

/-- Witness for the amended C8: on the record where the scorer's reasons
come out empty, the rendered list is exactly the default reason. -/
theorem rendered_risk_reasons_nonempty_witness :
    Report.report_risk_reasons
        (some (RiskEngine.evaluate [] ⟨0, 0⟩ quiet_meta []).reasons) =
      [Report.default_reason] := by
  exact (rendered_risk_reasons_nonempty [] ⟨0, 0⟩ quiet_meta []).2 (by decide)

/-! ### Empty-input short-circuit (C9) -/

/-- **C9** counterexample: on the empty input, classification is invalid
with the empty-input reason and the invalid early return performs NO
collaborator call at all — in particular `generate_docx_and_maybe_pdf`
(the Report Renderer) is NOT invoked, contrary to the claim that it still
produces output; `analyze` answers at main.py lines 178-183 with
`files := []` before reaching the render call at line 370. -/
theorem empty_input_renderer_not_invoked_cx :
    AppMain.analyze_branch true "" = .invalid AppMain.empty_reason ∧
    AppMain.branch_collaborator_calls (fun _ => ["pipeline_lookup"])
      (AppMain.analyze_branch true "") = [] ∧
    (AppMain.branch_collaborator_calls (fun _ => ["pipeline_lookup"])
      (AppMain.analyze_branch true "")).contains "generate_docx_and_maybe_pdf" = false := by
  refine ⟨by decide, by decide, by decide⟩

/-- **C9 (amended)** — for every input that strips to the empty string:
classification is invalid with the empty-input reason, the invalid branch
performs no lookups, never invokes the Risk Scorer AND never invokes the
Report Renderer (no collaborator call at all, `files = []`); the HTTP
response itself still summarizes the invalid-input reason
(`"Entrada inválida: Entrada vacía."`). -/
theorem empty_input_short_circuit_amended
    (enableTron : Bool) (s : String) (pipeline_calls : String → List String)
    (h : AppMain.normalize_input s = "") :
    AppMain.analyze_branch enableTron s = .invalid AppMain.empty_reason ∧
    AppMain.branch_collaborator_calls pipeline_calls
      (AppMain.analyze_branch enableTron s) = [] ∧
    AppMain.branch_summary (AppMain.analyze_branch enableTron s) =
      some (AppMain.invalid_summary AppMain.empty_reason) ∧
    AppMain.branch_files (AppMain.analyze_branch enableTron s) = some [] := by
  have hs : py_strip s = "" := h
  have hbr : AppMain.analyze_branch enableTron s = .invalid AppMain.empty_reason := by
    have hv : AppMain.validate_input enableTron s =
        ("invalid", some AppMain.empty_reason) := by
      simp [AppMain.validate_input, AppMain.normalize_input, hs]
    simp [AppMain.analyze_branch, hs, hv, AppMain.is_tron_address, py_starts_with]
  refine ⟨hbr, ?_, ?_, ?_⟩ <;> rw [hbr] <;> rfl

/-- Witness for the amended C9: a whitespace-only input short-circuits
with the empty-input reason, no collaborator calls and `files = []`. -/
theorem empty_input_short_circuit_amended_witness :
    AppMain.analyze_branch true "   " = .invalid AppMain.empty_reason ∧
    AppMain.branch_collaborator_calls (fun _ => ["pipeline_lookup"])
      (AppMain.analyze_branch true "   ") = [] ∧
    AppMain.branch_summary (AppMain.analyze_branch true "   ") =
      some (AppMain.invalid_summary AppMain.empty_reason) ∧
    AppMain.branch_files (AppMain.analyze_branch true "   ") = some [] := by
  exact empty_input_short_circuit_amended true "   "
    (fun _ => ["pipeline_lookup"]) (by decide)

/-! ### Adapters and network errors (C1) -/

/-- **C1** — contrary to the claim, the EVM receipt adapter does NOT
confine network errors: `_etherscan_v2_proxy_receipt` (apis.py lines
76-90) has no handler around `http_get`/`raise_for_status`, so a raised
`requests` timeout propagates out of `get_tx_receipt` to its caller; the
`safe_request` decorator, whose docstring says it exists to capture
network errors and return `None`, is applied to nothing in the source.
(`http_get` itself, apis.py lines 38-40, is even defined in terms of
itself, so every call raises `RecursionError`.) -/
theorem get_tx_receipt_propagates_network_error :
    Apis.get_tx_receipt (fun _ => .failure "requests.exceptions.Timeout") "auto" =
      .error "requests.exceptions.Timeout" ∧
    Apis.etherscan_v2_proxy_receipt
        (.failure "requests.exceptions.ConnectionError") =
      .error "requests.exceptions.ConnectionError" ∧
    Apis.safe_request
        (Except.error "requests.exceptions.Timeout" : Except String Apis.ReceiptJson) =
      none := by
  exact ⟨rfl, rfl, rfl⟩

/-! ### Receipt probing with an explicit polygon hint (C10) -/

/-- **C10** — `get_tx_receipt` (apis.py lines 64-74) with the explicit
hint `"polygon"`: (a) when the polygon probe's reply lacks a dict result
with a truthy `blockNumber`, the adapter falls back to the ethereum probe
and returns its reply with resolved chain `"ethereum"`; (b) conversely, a
`"polygon"`-resolved answer is only produced when the polygon probe's
reply did carry a block number. -/
theorem get_tx_receipt_polygon_hint_fallback :
    (∀ (net : String → Apis.HttpResult Apis.ReceiptJson) (dp de : Apis.ReceiptJson),
      Apis.etherscan_v2_proxy_receipt (net "polygon") = .ok dp →
      Apis.receipt_has_block dp = false →
      Apis.etherscan_v2_proxy_receipt (net "ethereum") = .ok de →
      Apis.get_tx_receipt net "polygon" = .ok (de, "ethereum")) ∧
    (∀ (net : String → Apis.HttpResult Apis.ReceiptJson) (d : Apis.ReceiptJson),
      Apis.get_tx_receipt net "polygon" = .ok (d, "polygon") →
      Apis.receipt_has_block d = true) := by
  constructor
  · intro net dp de hp hnb he
    simp [Apis.get_tx_receipt, hp, hnb, he]
  · intro net d h
    rw [Apis.get_tx_receipt] at h
    simp only [show (("polygon" == "auto" || "polygon" == "polygon") : Bool) = true
      from rfl, if_true] at h
    split at h
    · exact Except.noConfusion h
    · rename_i data heq
      split at h
      · rename_i hb
        rw [Except.ok.injEq, Prod.mk.injEq] at h
        exact h.1 ▸ hb
      · split at h
        · exact Except.noConfusion h
        · rw [Except.ok.injEq, Prod.mk.injEq] at h
          exact absurd h.2 (by decide)

/-- Witness for C10: on `net_poly_empty` (polygon reply without a block
number) the explicit polygon request resolves to the ethereum reply; on
`net_poly_ok` the polygon-resolved answer indeed carries a block number. -/
theorem get_tx_receipt_polygon_hint_fallback_witness :
    Apis.get_tx_receipt net_poly_empty "polygon" =
      .ok (⟨some (.obj ⟨some "0x10"⟩)⟩, "ethereum") ∧
    Apis.receipt_has_block ⟨some (.obj ⟨some "0x9"⟩)⟩ = true := by
  constructor
  · exact get_tx_receipt_polygon_hint_fallback.1 net_poly_empty
      ⟨some (.obj ⟨none⟩)⟩ ⟨some (.obj ⟨some "0x10"⟩)⟩ rfl rfl rfl
  · exact get_tx_receipt_polygon_hint_fallback.2 net_poly_ok
      ⟨some (.obj ⟨some "0x9"⟩)⟩ rfl
